import Mathlib

/-!
Shallow embedding of the quicssh-rs sources (src/client.rs, src/server.rs,
src/unbound_udpsocket.rs): the routing decision of the server, the
per-direction relay-loop bodies of the pumps, the client's certificate
verifier, endpoint-family selection, signal handling, and the unbound
datagram-socket factory.  Each definition is translated from the Rust
source named in its doc comment; theorems settle the specification's
claims about them.
-/

namespace QuicsshRs

/-! ## Data model: addresses -/

/-- Model of `std::net::IpAddr`: a V4 address is four octets, a V6 address
is eight 16-bit segments. -/
inductive IpAddr where
  | v4 (a b c d : Nat)
  | v6 (s0 s1 s2 s3 s4 s5 s6 s7 : Nat)
deriving DecidableEq

/-- Rust `IpAddr::is_ipv6` / `SocketAddr::is_ipv6`: true exactly on the V6
variant. -/
def IpAddr.is_ipv6 : IpAddr → Bool
  | .v4 _ _ _ _ => false
  | .v6 _ _ _ _ _ _ _ _ => true

/-- Rust `Display for Ipv4Addr`: dotted decimal. -/
def renderIpv4 (a b c d : Nat) : String :=
  s!"{a}.{b}.{c}.{d}"

/-- Rendering of a V6 address as colon-separated lowercase hex segments.
Rust's `Display for Ipv6Addr` additionally compresses the longest zero run
and special-cases IPv4-mapped addresses; no theorem below depends on the
V6 branch, every concrete address used in a proof is V4. -/
def renderIpv6 (s0 s1 s2 s3 s4 s5 s6 s7 : String) : String :=
  s0 ++ ":" ++ s1 ++ ":" ++ s2 ++ ":" ++ s3 ++ ":" ++ s4 ++ ":" ++ s5 ++ ":" ++ s6 ++ ":" ++ s7

/-- Rust `IpAddr::to_string` (via `Display`). -/
def IpAddr.render : IpAddr → String
  | .v4 a b c d => renderIpv4 a b c d
  | .v6 s0 s1 s2 s3 s4 s5 s6 s7 =>
      renderIpv6 (Nat.toDigits 16 s0).asString (Nat.toDigits 16 s1).asString
        (Nat.toDigits 16 s2).asString (Nat.toDigits 16 s3).asString
        (Nat.toDigits 16 s4).asString (Nat.toDigits 16 s5).asString
        (Nat.toDigits 16 s6).asString (Nat.toDigits 16 s7).asString

/-- Model of `std::net::SocketAddr`: an IP address plus a port. -/
structure SocketAddr where
  ip : IpAddr
  port : Nat
deriving DecidableEq

/-- Rust `SocketAddr::to_string` (via `Display`): `ip:port` for V4,
`[ip]:port` for V6. -/
def SocketAddr.render (s : SocketAddr) : String :=
  match s.ip with
  | .v4 _ _ _ _ => s.ip.render ++ ":" ++ toString s.port
  | .v6 _ _ _ _ _ _ _ _ => "[" ++ s.ip.render ++ "]:" ++ toString s.port

/-- `SocketAddr::new(V4(Ipv4Addr::LOCALHOST), 22)` of server.rs line 79. -/
def localhost22 : SocketAddr := ⟨.v4 127 0 0 1, 22⟩

/-! ## server.rs: configuration and routing -/

/-- `struct ServerConf { proxy: HashMap<String, SocketAddr> }` (server.rs
lines 54-57).  The hash map is embedded as an association list; `HashMap`
keys are unique, which theorems needing it take as a `Nodup` hypothesis. -/
structure ServerConf where
  proxy : List (String × SocketAddr)
deriving DecidableEq

/-- `HashMap::get`: the value at the key, if present. -/
def proxyGet (m : List (String × SocketAddr)) (k : String) : Option SocketAddr :=
  match m with
  | [] => none
  | (k', v) :: rest => if k' = k then some v else proxyGet rest k

/-- `ServerConf::new()` (server.rs lines 59-63): empty map. -/
def ServerConf.new : ServerConf := ⟨[]⟩

/-- server.rs lines 73-81: the effective default backend.
`match conf.proxy.get("default") { Some(sock) => sock.clone(), None =>
options.proxy_to.unwrap_or(SocketAddr::new(V4(Ipv4Addr::LOCALHOST), 22)) }` -/
def default_proxy (conf : ServerConf) (proxy_to : Option SocketAddr) : SocketAddr :=
  match proxyGet conf.proxy "default" with
  | some sock => sock
  | none => proxy_to.getD localhost22

/-- server.rs line 107: the routing decision per accepted session.
`conf.proxy.get(&sni).unwrap_or(&default_proxy).clone()` -/
def route (conf : ServerConf) (proxy_to : Option SocketAddr) (sni : String) : SocketAddr :=
  (proxyGet conf.proxy sni).getD (default_proxy conf proxy_to)

/-- An association list with nodup keys returns exactly the stored value. -/
theorem proxyGet_eq_some_of_mem (m : List (String × SocketAddr)) (k : String)
    (v : SocketAddr) (huniq : (m.map Prod.fst).Nodup) (hmem : (k, v) ∈ m) :
    proxyGet m k = some v := by
  induction m with
  | nil => cases hmem
  | cons hd tl ih =>
      obtain ⟨k', v'⟩ := hd
      simp only [List.map_cons, List.nodup_cons] at huniq
      rcases List.mem_cons.mp hmem with heq | htl
      · injection heq with hk hv
        subst hk; subst hv
        simp [proxyGet]
      · have hkne : ¬ k' = k := by
          intro h
          exact huniq.1 (h ▸ (List.mem_map.mpr ⟨(k, v), htl, rfl⟩))
        show (if k' = k then some v' else proxyGet tl k) = some v
        rw [if_neg hkne]
        exact ih huniq.2 htl

/-- A key absent from the key list is not found. -/
theorem proxyGet_eq_none_of_not_mem (m : List (String × SocketAddr)) (k : String)
    (habs : k ∉ m.map Prod.fst) : proxyGet m k = none := by
  induction m with
  | nil => rfl
  | cons hd tl ih =>
      obtain ⟨k', v'⟩ := hd
      simp only [List.map_cons, List.mem_cons] at habs
      push_neg at habs
      show (if k' = k then some v' else proxyGet tl k) = none
      rw [if_neg (fun h => habs.1 h.symm)]
      exact ih habs.2

/-! ## server.rs: routing-key extraction (lines 100-106) -/

/-- server.rs lines 100-106: the routing key of an accepted session.
`conn.handshake_data()...server_name.unwrap_or(conn.remote_address().ip().to_string())`
— note the fallback renders only the IP of the remote address, not the
port. -/
def extractSni (server_name : Option String) (remote : SocketAddr) : String :=
  server_name.getD remote.ip.render

/-- Refinement target following the claim's words: the peer-declared name
if present, else the remote socket address rendered as text. -/
def extractSniClaimed (server_name : Option String) (remote : SocketAddr) : String :=
  server_name.getD remote.render

/-! ## Concrete example data used by witnesses -/

def exAddrA : SocketAddr := ⟨.v4 10 0 0 1, 2200⟩

def exAddrD : SocketAddr := ⟨.v4 10 0 0 2, 22⟩

def exConf : ServerConf := ⟨[("alpha", exAddrA)]⟩

def exConfD : ServerConf := ⟨[("default", exAddrD)]⟩

def exRemote : SocketAddr := ⟨.v4 127 0 0 1, 9999⟩

/-! ## Claim theorems: routing -/

/-- C1: RoutingTable lookup is pure and total: for every input key, exactly
one backend address is returned — the mapped address when the key is among
the configured entries (whose keys, coming from a `HashMap`, are unique),
else the effective default backend.  The lookup `route` is a pure Lean
function, so it performs no mutation. -/
theorem route_pure_total (conf : ServerConf) (pt : Option SocketAddr) (k : String)
    (huniq : (conf.proxy.map Prod.fst).Nodup) :
    (∀ v, (k, v) ∈ conf.proxy → route conf pt k = v) ∧
    (k ∉ conf.proxy.map Prod.fst → route conf pt k = default_proxy conf pt) := by
  constructor
  · intro v hmem
    unfold route
    rw [proxyGet_eq_some_of_mem conf.proxy k v huniq hmem]
    rfl
  · intro habs
    unfold route
    rw [proxyGet_eq_none_of_not_mem conf.proxy k habs]
    rfl

/-- Witness for C1 at a concrete configuration: a present key maps to its
entry, an absent key falls back to the default backend. -/
theorem route_pure_total_witness :
    route exConf none "alpha" = exAddrA ∧
    route exConf none "beta" = default_proxy exConf none := by
  refine ⟨(route_pure_total exConf none "alpha" (by decide)).1 exAddrA (by decide),
          (route_pure_total exConf none "beta" (by decide)).2 (by decide)⟩

/-- C4: the effective default backend is the configured "default" entry if
present; otherwise the command-line `proxy_to` override if present;
otherwise the loopback address at port 22. -/
theorem default_proxy_priority (conf : ServerConf) (pt : Option SocketAddr) :
    default_proxy conf pt =
      match proxyGet conf.proxy "default", pt with
      | some sock, _ => sock
      | none, some a => a
      | none, none => localhost22 := by
  unfold default_proxy
  cases h : proxyGet conf.proxy "default" <;> cases pt <;> rfl

/-- C10: a session whose routing key is the literal string "default", under
a configuration containing a "default" entry, is routed to that entry's
backend, which by construction equals the effective default backend. -/
theorem route_default_key (conf : ServerConf) (pt : Option SocketAddr) (v : SocketAddr)
    (h : proxyGet conf.proxy "default" = some v) :
    route conf pt "default" = v ∧ default_proxy conf pt = v := by
  have hd : default_proxy conf pt = v := by
    unfold default_proxy
    rw [h]
  refine ⟨?_, hd⟩
  unfold route
  rw [h]
  rfl

/-- Witness for C10 at a concrete configuration with a "default" entry. -/
theorem route_default_key_witness :
    route exConfD none "default" = exAddrD ∧ default_proxy exConfD none = exAddrD :=
  route_default_key exConfD none exAddrD (by decide)

/-! ## Claim theorems: routing-key extraction -/

/-- C3 counterexample: for a session with no peer-declared name whose remote
address is 127.0.0.1:9999, the code's routing key is "127.0.0.1" (the IP
rendered alone), not the remote address rendered as text ("127.0.0.1:9999"). -/
theorem extractSni_counterexample :
    extractSni none exRemote ≠ extractSniClaimed none exRemote := by decide

/-- C3 amended: the routing key equals the peer-declared name when the
handshake supplied one, and otherwise the IP component of the session's
remote address rendered as text (the port is not included). -/
theorem extractSni_amended (server_name : Option String) (remote : SocketAddr) :
    extractSni server_name remote =
      match server_name with
      | some name => name
      | none => remote.ip.render := by
  cases server_name <;> rfl

/-! ## client.rs: certificate verification (lines 42-62) -/

/-- Model of `rustls::Certificate`: DER bytes. -/
structure Certificate where
  der : List Nat
deriving DecidableEq

/-- Model of `rustls::ServerName`. -/
structure ServerName where
  name : String
deriving DecidableEq

/-- Model of `rustls::client::ServerCertVerified`: the opaque token produced
by `ServerCertVerified::assertion()`. -/
inductive ServerCertVerified where
  | assertion
deriving DecidableEq

/-- Model of `rustls::Error`. -/
structure RustlsError where
  msg : String
deriving DecidableEq

/-- client.rs lines 50-62, `SkipServerVerification::verify_server_cert`:
ignores every argument and returns `Ok(ServerCertVerified::assertion())`. -/
def verify_server_cert (end_entity : Certificate) (intermediates : List Certificate)
    (server_name : ServerName) (scts : List (List Nat)) (ocsp_response : List Nat)
    (now : Nat) : Except RustlsError ServerCertVerified :=
  Except.ok ServerCertVerified.assertion

/-! ## client.rs: endpoint-family selection (lines 135-144) -/

/-- util.rs is not present under src/.  Modelled from the spec:
`crate::util::IpAddrKind`, the address-family selector passed to the socket
factory — `create_unbound_datagram_socket(family: IPv4|IPv6)` — with the
two variants V4 and V6 that client.rs and unbound_udpsocket.rs match on. -/
inductive IpAddrKind where
  | V4
  | V6
deriving DecidableEq

/-- The endpoint construction chosen by client.rs `run`. -/
inductive EndpointChoice where
  | unboundEndpoint (kind : IpAddrKind)
  | boundEndpoint (addr : SocketAddr)
deriving DecidableEq

/-- client.rs lines 135-144: `match options.bind_addr { None => if
remote.is_ipv6() { make_unbound_client_endpoint(V6) } else {
make_unbound_client_endpoint(V4) }, Some(local) =>
make_bound_client_endpoint(local) }`. -/
def chooseEndpoint (bind_addr : Option SocketAddr) (remote : SocketAddr) : EndpointChoice :=
  match bind_addr with
  | none =>
      if remote.ip.is_ipv6 then EndpointChoice.unboundEndpoint IpAddrKind.V6
      else EndpointChoice.unboundEndpoint IpAddrKind.V4
  | some localAddr => EndpointChoice.boundEndpoint localAddr

/-! ## client.rs: signal handling and select (lines 225-242) -/

/-- The three concurrent tasks raced by the client's `tokio::select!`. -/
inductive ClientTask where
  | recvPump
  | sendPump
  | signalListener
deriving DecidableEq

/-- `b"signal HUP"`, the close reason bytes of client.rs line 241. -/
def signalHupReason : List Nat := [115, 105, 103, 110, 97, 108, 32, 72, 85, 80]

/-- client.rs lines 238-242: the arm body run for the branch that completes
first — `connection.close(0u32.into(), b"signal HUP")` on the signal
listener, nothing on the two pumps — as the close call it performs. -/
def selectArmEffect : ClientTask → Option (Nat × List Nat)
  | ClientTask.signalListener => some (0, signalHupReason)
  | ClientTask.recvPump => none
  | ClientTask.sendPump => none

/-- `tokio::select!` semantics on the three tasks: when one branch completes
first, the other two are dropped without being awaited. -/
def abandonedTasks (first : ClientTask) : List ClientTask :=
  [ClientTask.recvPump, ClientTask.sendPump, ClientTask.signalListener].filter
    (fun t => decide (t ≠ first))

/-! ## Claim theorems: client -/

/-- C5: the client's certificate verification accepts every peer certificate
unconditionally: for all certificate chains, server names, SCTs, OCSP
responses and timestamps it returns `Ok(ServerCertVerified::assertion())`,
never an error. -/
theorem verify_server_cert_accepts_all (ee : Certificate) (ints : List Certificate)
    (sn : ServerName) (scts : List (List Nat)) (ocsp : List Nat) (now : Nat) :
    verify_server_cert ee ints sn scts ocsp now =
      Except.ok ServerCertVerified.assertion := rfl

/-- C7: with no explicit local bind configured, the client constructs an
unbound endpoint whose family matches the resolved target's: an IPv6 target
yields an IPv6 unbound socket, any other target an IPv4 unbound socket. -/
theorem chooseEndpoint_family (remote : SocketAddr) :
    (remote.ip.is_ipv6 = true →
      chooseEndpoint none remote = EndpointChoice.unboundEndpoint IpAddrKind.V6) ∧
    (remote.ip.is_ipv6 = false →
      chooseEndpoint none remote = EndpointChoice.unboundEndpoint IpAddrKind.V4) := by
  constructor
  · intro h
    unfold chooseEndpoint
    rw [h]
    rfl
  · intro h
    unfold chooseEndpoint
    rw [h]
    rfl

/-- Witness for C7 at a concrete IPv6 and a concrete IPv4 target. -/
theorem chooseEndpoint_family_witness :
    chooseEndpoint none ⟨.v6 0 0 0 0 0 0 0 1, 4433⟩ =
      EndpointChoice.unboundEndpoint IpAddrKind.V6 ∧
    chooseEndpoint none ⟨.v4 192 0 2 7, 4433⟩ =
      EndpointChoice.unboundEndpoint IpAddrKind.V4 :=
  ⟨(chooseEndpoint_family ⟨.v6 0 0 0 0 0 0 0 1, 4433⟩).1 rfl,
   (chooseEndpoint_family ⟨.v4 192 0 2 7, 4433⟩).2 rfl⟩

/-- C8: on a hang-up signal the client closes the session with application
close code 0 and the literal reason bytes "signal HUP"; the select completes
with the first task to finish, abandoning the two others (each completing
task is not among its own abandoned set, which has the other two members). -/
theorem client_signal_select :
    selectArmEffect ClientTask.signalListener = some (0, signalHupReason) ∧
    signalHupReason = ("signal HUP".data.map Char.toNat) ∧
    (∀ t, t ∉ abandonedTasks t ∧ (abandonedTasks t).length = 2) := by
  refine ⟨rfl, by decide, ?_⟩
  intro t
  cases t <;> exact ⟨by decide, rfl⟩

/-! ## Pump relay loops (client.rs lines 159-223, server.rs lines 143-194)

Each one-directional relay is an unbounded `loop` whose body reads once,
possibly writes, and either runs `continue` (next iteration) or `return`
(the direction terminates).  The body is embedded as a step function from
the read outcome (and the success of the subsequent write) to the action
taken.  A `tokio` read into the 2048-byte buffer yields `Ok n` — with
`Ok 0` meaning end-of-stream, as the code's own comments state ("Return
value of Ok(0) signifies that the remote has closed") — or `Err`; a quinn
stream read yields `Ok None` for end-of-stream, `Ok (Some n)` for data, or
`Err`.  A read on which no data is available yet suspends and yields no
outcome at all. -/

/-- Model of `std::io::Error`. -/
structure IoError where
  msg : String
deriving DecidableEq

/-- Model of `quinn::ReadError`. -/
structure ReadError where
  msg : String
deriving DecidableEq

/-- The action a relay-loop body ends with. -/
inductive LoopStep where
  | continueLoop
  | terminateLoop
deriving DecidableEq

/-- server.rs lines 143-166, `recv_thread` body: `ssh_recv.read` gives
`Ok n` (with `n = 0` → `continue`) or `Err` (→ `return`); on data,
`quinn_send.write_all` failure → `return`, success → next iteration. -/
def server_recv_step (readRes : Except IoError Nat) (writeOk : Bool) : LoopStep :=
  match readRes with
  | Except.ok n =>
      if n = 0 then LoopStep.continueLoop
      else if writeOk then LoopStep.continueLoop else LoopStep.terminateLoop
  | Except.error _ => LoopStep.terminateLoop

/-- server.rs lines 168-194, `write_thread` body: `quinn_recv.read` gives
`Ok None` (→ `continue`), `Ok (Some n)` (with `n = 0` → `continue`) or
`Err` (→ `return`); on data, `ssh_write.write_all` failure → `return`. -/
def server_write_step (readRes : Except ReadError (Option Nat)) (writeOk : Bool) : LoopStep :=
  match readRes with
  | Except.ok none => LoopStep.continueLoop
  | Except.ok (some n) =>
      if n = 0 then LoopStep.continueLoop
      else if writeOk then LoopStep.continueLoop else LoopStep.terminateLoop
  | Except.error _ => LoopStep.terminateLoop

/-- client.rs lines 159-192, `recv_thread` body: `recv.read` gives
`Ok None` (→ `continue`), `Ok (Some n)` or `Err` (→ `return`); on data,
`writer.write_all` failure → `return`; the trailing `writer.flush` failure
is only logged, so `flushOk` never changes the action. -/
def client_recv_step (readRes : Except ReadError (Option Nat)) (writeOk : Bool)
    (flushOk : Bool) : LoopStep :=
  match readRes with
  | Except.ok none => LoopStep.continueLoop
  | Except.ok (some _) =>
      if writeOk then LoopStep.continueLoop else LoopStep.terminateLoop
  | Except.error _ => LoopStep.terminateLoop

/-- client.rs lines 194-223, `write_thread` body: `reader.read` gives
`Ok n` (with `n = 0` → `continue`) or `Err` (→ `return`); on data,
`send.write_all` failure → `return`. -/
def client_write_step (readRes : Except IoError Nat) (sendOk : Bool) : LoopStep :=
  match readRes with
  | Except.ok n =>
      if n = 0 then LoopStep.continueLoop
      else if sendOk then LoopStep.continueLoop else LoopStep.terminateLoop
  | Except.error _ => LoopStep.terminateLoop

/-! ## server.rs: accept loop (lines 85-118) and session task (lines 121-129) -/

/-- What one await of the accept loop produced: `endpoint.accept()`
returning `None`, `incoming_conn.await` failing, or an established
session carrying the handshake's optional server name and a remote
address. -/
inductive AcceptEvent where
  | noIncoming
  | handshakeFailure (msg : String)
  | established (server_name : Option String) (remote : SocketAddr)
deriving DecidableEq

/-- How the accept-loop body ends. -/
inductive LoopAction where
  | continueLoop
  | spawnSession (proxy_to : SocketAddr)
  | stopLoop
deriving DecidableEq

/-- server.rs lines 85-118, the accept-loop body: `None` from `accept()` →
`continue`; a failed `incoming_conn.await` → log and `continue`; an
established session → extract the key, look it up, `tokio::spawn` the
session task, and loop again. -/
def acceptStep (conf : ServerConf) (pt : Option SocketAddr) : AcceptEvent → LoopAction
  | AcceptEvent.noIncoming => LoopAction.continueLoop
  | AcceptEvent.handshakeFailure _ => LoopAction.continueLoop
  | AcceptEvent.established server_name remote =>
      LoopAction.spawnSession (route conf pt (extractSni server_name remote))

/-- How a spawned session task reacts to its backend dial. -/
inductive SessionAction where
  | abortSession
  | proceed
deriving DecidableEq

/-- server.rs lines 121-129, start of `handle_connection`:
`TcpStream::connect` failure → log and `return` (aborting only this task);
success → proceed with the session. -/
def handleDialStep (dial : Except IoError Unit) : SessionAction :=
  match dial with
  | Except.error _ => SessionAction.abortSession
  | Except.ok _ => SessionAction.proceed

/-! ## unbound_udpsocket.rs: the socket factory -/

/-- `libc::AF_INET` on Linux. -/
def AF_INET : Nat := 2

/-- `libc::AF_INET6` on Linux. -/
def AF_INET6 : Nat := 10

/-- `libc::SOCK_DGRAM` on Linux. -/
def SOCK_DGRAM : Nat := 2

/-- `libc::SOCK_CLOEXEC` on Linux (0o2000000). -/
def SOCK_CLOEXEC : Nat := 524288

/-- A syscall the factory can issue: `socket(2)` with its three arguments,
or `bind(2)` — which the factory never issues; it is in the type so that
"no bind is performed" is a statement about the emitted trace. -/
inductive Sys where
  | socketCall (fam ty proto : Nat)
  | bindCall (fd : Int)
deriving DecidableEq

/-- `cvt::cvt` on the return value of a syscall: `-1` becomes
`Err(io::Error::last_os_error())`, anything else is `Ok`. -/
def cvt (ret : Int) (errno : Nat) : Except IoError Int :=
  if ret = -1 then Except.error ⟨s!"os error {errno}"⟩ else Except.ok ret

/-- unbound_udpsocket.rs lines 19-27 (the Linux-family variant of
`raw_socket_fd`): one `socket(fam, ty | SOCK_CLOEXEC, 0)` call, its result
through `cvt`.  `osRet`/`osErrno` are the OS's response to that call; the
first component is the trace of syscalls issued. -/
def raw_socket_fd (osRet : Int) (osErrno : Nat) (fam ty : Nat) :
    List Sys × Except IoError Int :=
  ([Sys.socketCall fam (Nat.lor ty SOCK_CLOEXEC) 0], cvt osRet osErrno)

/-- Model of `std::net::UdpSocket` as reconstructed by `from_raw_fd`. -/
structure UdpSocket where
  fd : Int
deriving DecidableEq

/-- unbound_udpsocket.rs lines 73-87, `unbound_udpsocket`: pick the address
family from `kind`, call `raw_socket_fd(fam, SOCK_DGRAM)`, and on success
wrap the fd with `UdpSocket::from_raw_fd`; the error otherwise propagates
through `?`. -/
def unbound_udpsocket (osRet : Int) (osErrno : Nat) (kind : IpAddrKind) :
    List Sys × Except IoError UdpSocket :=
  let fam := match kind with
    | IpAddrKind.V4 => AF_INET
    | IpAddrKind.V6 => AF_INET6
  let res := raw_socket_fd osRet osErrno fam SOCK_DGRAM
  (res.1, res.2.map (fun fd => ⟨fd⟩))

/-! ## Claim theorems: pump loops, isolation, socket factory -/

/-- C2 (the code evaluated at the failing input): each of the four
relay-loop bodies, on an explicit end-of-stream read — tokio `Ok(0)`,
quinn `Ok(None)`, the outcomes the code's own comments call "the remote
has closed" — executes `continue` instead of terminating its direction;
a read error does terminate.  So a direction's relay does not terminate
when its source reaches end-of-stream, contrary to the claim. -/
theorem pump_eof_step_continues :
    server_recv_step (Except.ok 0) true = LoopStep.continueLoop ∧
    server_write_step (Except.ok none) true = LoopStep.continueLoop ∧
    client_recv_step (Except.ok none) true true = LoopStep.continueLoop ∧
    client_write_step (Except.ok 0) true = LoopStep.continueLoop ∧
    server_recv_step (Except.error ⟨"connection reset"⟩) true = LoopStep.terminateLoop ∧
    server_write_step (Except.error ⟨"connection reset"⟩) true = LoopStep.terminateLoop ∧
    client_recv_step (Except.error ⟨"connection reset"⟩) true true = LoopStep.terminateLoop ∧
    client_write_step (Except.error ⟨"connection reset"⟩) true = LoopStep.terminateLoop :=
  ⟨rfl, rfl, rfl, rfl, rfl, rfl, rfl, rfl⟩

/-- C6: a per-session failure never stops the accept loop: every accept
event ends in `continue` or in spawning a session task (never in stopping
the loop), a handshake-completion failure in particular continues the
loop, and a backend dial failure makes only the session's own task return
(`abortSession`). -/
theorem session_isolation (conf : ServerConf) (pt : Option SocketAddr) :
    (∀ ev, acceptStep conf pt ev = LoopAction.continueLoop ∨
      ∃ p, acceptStep conf pt ev = LoopAction.spawnSession p) ∧
    (∀ m, acceptStep conf pt (AcceptEvent.handshakeFailure m) = LoopAction.continueLoop) ∧
    (∀ e, handleDialStep (Except.error e) = SessionAction.abortSession) := by
  refine ⟨?_, fun _ => rfl, fun _ => rfl⟩
  intro ev
  cases ev with
  | noIncoming => exact Or.inl rfl
  | handshakeFailure m => exact Or.inl rfl
  | established server_name remote => exact Or.inr ⟨_, rfl⟩

/-- C9: for either address family, the factory issues exactly one
`socket(2)` call whose type argument is `SOCK_DGRAM` with `SOCK_CLOEXEC`
or-ed in (so the handle is a datagram socket created with close-on-exec
set atomically), it never issues a `bind(2)` call, and its result is
either the handle around the returned fd, or — exactly when the syscall
returns -1 — the propagated OS I/O error; no other outcome exists. -/
theorem unbound_udpsocket_contract (osRet : Int) (osErrno : Nat) (kind : IpAddrKind) :
    (∀ fd, Sys.bindCall fd ∉ (unbound_udpsocket osRet osErrno kind).1) ∧
    (∀ fam ty proto, Sys.socketCall fam ty proto ∈ (unbound_udpsocket osRet osErrno kind).1 →
      ty = Nat.lor SOCK_DGRAM SOCK_CLOEXEC ∧ Nat.land ty SOCK_CLOEXEC = SOCK_CLOEXEC) ∧
    (osRet = -1 →
      (unbound_udpsocket osRet osErrno kind).2 = Except.error ⟨s!"os error {osErrno}"⟩) ∧
    (osRet ≠ -1 → (unbound_udpsocket osRet osErrno kind).2 = Except.ok ⟨osRet⟩) := by
  refine ⟨?_, ?_, ?_, ?_⟩
  · intro fd hmem
    cases kind <;> simp [unbound_udpsocket, raw_socket_fd] at hmem
  · intro fam ty proto hmem
    cases kind <;> simp [unbound_udpsocket, raw_socket_fd] at hmem <;>
      · obtain ⟨-, hty, -⟩ := hmem
        subst hty
        exact ⟨rfl, by decide⟩
  · intro h
    cases kind <;> simp [unbound_udpsocket, raw_socket_fd, cvt, h, Except.map]
  · intro h
    cases kind <;> simp [unbound_udpsocket, raw_socket_fd, cvt, h, Except.map]

end QuicsshRs
